import Mathlib

/-!
Shallow embedding of `my_classes/classes.py` (BinanceTradeBot).

Conventions of the embedding:
- A kline (candle) is modelled by the two fields the claims touch: its open
  time (index 0 of the raw list, an integer timestamp) and its closing price
  (index 4, parsed with `float`).  Prices are modelled as rationals; the one
  irrational step of the program, `math.sqrt`, is modelled by `Real.sqrt`.
- `self.client` (the exchange) is an explicit parameter; the number of
  network calls performed is returned alongside the result so that the
  claims about "no network call" are statable.
- A Python exception is modelled by `Except`: `KeyError` from the interval
  table, `IndexError` from out-of-range kline access, `AttributeError` from
  reading `self.amount` before any buy set it, and exchange failures.
- Mutation of `self` is explicit state passing on `BotState`.
-/

namespace BinanceTradeBot

instance {ε α : Type} [DecidableEq ε] [DecidableEq α] : DecidableEq (Except ε α) :=
  fun x y =>
  match x, y with
  | .error a, .error b =>
      if h : a = b then .isTrue (by rw [h]) else .isFalse (by simp [h])
  | .error _, .ok _ => .isFalse (by simp)
  | .ok _, .error _ => .isFalse (by simp)
  | .ok a, .ok b =>
      if h : a = b then .isTrue (by rw [h]) else .isFalse (by simp [h])

/-- One kline as the code consumes it: `kline[0]` is the open time and
`kline[4]` is the closing price. -/
structure Candle where
  openTime : ℤ
  close : ℚ
deriving DecidableEq

/-- Python exceptions the modelled code can raise.  The spec renames them:
`keyError` is its `InvalidIntervalError`, `indexError` its
`InsufficientDataError`, `attributeError` its `NoOpenPositionError`. -/
inductive BotError where
  | keyError
  | indexError
  | attributeError
  | apiError
deriving DecidableEq

/-- The exchange client: `get_klines(symbol, interval, limit)` as a pure
function from the three arguments to the returned window. -/
structure ExchangeAPI where
  klines : String → String → Nat → List Candle

/-- The `kline_intervals` dictionary of `Bot.get_klines`, mapping the human
interval code to the exchange native token (`Client.KLINE_INTERVAL_*`). -/
def kline_intervals : List (String × String) :=
  [("15m", "15m"), ("30m", "30m"),
   ("1H", "1h"), ("2H", "2h"),
   ("4H", "4h"), ("6H", "6h"),
   ("12H", "12h"), ("1D", "1d")]

/-- `Bot.get_klines(limit_)`.  Looks the session interval up in the table
(a missing key raises `KeyError` before the client is consulted), fetches
the window, reverses it, returns it.  The second component counts the
exchange calls performed. -/
def get_klines (api : ExchangeAPI) (asset : String) (time_interval : String)
    (limit_ : Nat) : Except BotError (List Candle) × Nat :=
  match kline_intervals.lookup time_interval with
  | none => (.error .keyError, 0)
  | some token => (.ok (api.klines asset token limit_).reverse, 1)

/-- Strictly ascending chronological order (oldest first). -/
def strictChronAsc (l : List Candle) : Prop :=
  l.Pairwise (fun a b => a.openTime < b.openTime)

/-- Strictly descending chronological order (newest first). -/
def strictChronDesc (l : List Candle) : Prop :=
  l.Pairwise (fun a b => b.openTime < a.openTime)

instance : DecidablePred strictChronAsc := fun l =>
  List.instDecidablePairwise l

instance : DecidablePred strictChronDesc := fun l =>
  List.instDecidablePairwise l

/-- A concrete exchange answering every kline request with `n` candles at
open times `0, 1, …, n-1` (oldest first) and close `i` for time `i`. -/
def apiAsc : ExchangeAPI :=
  ⟨fun _ _ n => (List.range n).map (fun i => ⟨i, (i : ℚ)⟩)⟩

/-- `round(y)` of Python: nearest integer, ties to the even candidate.
At a tie the two candidates are `⌊y⌋` and `⌊y⌋ + 1`; off ties this is
Mathlib `round` (nearest integer). -/
noncomputable def pyRound (y : ℝ) : ℤ :=
  if Int.fract y = 1 / 2 then (if Even ⌊y⌋ then ⌊y⌋ else ⌊y⌋ + 1)
  else round y

/-- `round(x, 8)` of Python on the value `x`: the 8-fractional-digit decimal
nearest to `x`, ties to even. -/
noncomputable def pyRound8 (x : ℝ) : ℚ :=
  (pyRound (x * 10 ^ 8) : ℚ) / 10 ^ 8

/-- `last_20_closes = [float(klines[i][4]) for i in range(20)]` of
`Bot.get_bbands`: the comprehension raises `IndexError` as soon as `i`
reaches the length of a too-short window, producing no partial list. -/
def last_20_closes (klines : List Candle) : Except BotError (List ℚ) :=
  if klines.length < 20 then .error .indexError
  else .ok ((klines.take 20).map Candle.close)

/-- `simple_ma = sum(last_20_closes) / 20`. -/
def simple_ma (closes : List ℚ) : ℚ := closes.sum / 20

/-- `squared_list = [(close - simple_ma)**2 for close in last_20_closes]`. -/
def squared_list (closes : List ℚ) : List ℚ :=
  closes.map (fun close => (close - simple_ma closes) ^ 2)

/-- `standard_deviation = math.sqrt(sum(squared_list) / 20)`. -/
noncomputable def standard_deviation (closes : List ℚ) : ℝ :=
  Real.sqrt (((squared_list closes).sum / 20 : ℚ) : ℝ)

/-- `lower_band = round(simple_ma - (standard_deviation * 2), 8)`. -/
noncomputable def lower_band (closes : List ℚ) : ℚ :=
  pyRound8 ((simple_ma closes : ℝ) - standard_deviation closes * 2)

/-- The pure tail of `Bot.get_bbands` after the window has been fetched:
gather the closes of `klines[0..19]`, then compute the band. -/
noncomputable def compute_lower_band (klines : List Candle) : Except BotError ℚ :=
  (last_20_closes klines).map lower_band

/-- `Bot.get_bbands`: fetch 25 klines (reversed by `get_klines`), then run
the band computation on them. -/
noncomputable def get_bbands (api : ExchangeAPI) (asset : String)
    (time_interval : String) : Except BotError ℚ :=
  match (get_klines api asset time_interval 25).1 with
  | .error e => .error e
  | .ok klines => compute_lower_band klines

/-- The closes list that `Bot.get_bbands` feeds its band computation, made
explicit so the window-selection claims are statable. -/
def bband_closes_used (api : ExchangeAPI) (asset : String)
    (time_interval : String) : Except BotError (List ℚ) :=
  match (get_klines api asset time_interval 25).1 with
  | .error e => .error e
  | .ok klines => last_20_closes klines

/-- `int(q)` of Python: truncation toward zero. -/
def pyInt (q : ℚ) : ℤ := if 0 ≤ q then ⌊q⌋ else ⌈q⌉

/-- The mutable attributes of `Bot` that the trading claims touch:
`self.asset`, `self.trade_amount`, and `self.amount`, which does not exist
(`none`) until a buy assigns it — reading it then raises `AttributeError`. -/
structure BotState where
  asset : String
  trade_amount : ℚ
  amount : Option ℤ
deriving DecidableEq

/-- The order side of the exchange client: whether
`order_market_buy` / `order_market_sell` succeeds for a symbol/quantity. -/
structure OrderAPI where
  buyOk : String → ℤ → Bool
  sellOk : String → ℤ → Bool

/-- `Bot.place_market_buy(current_price)`.  The source assigns
`self.amount = int(self.trade_amount / current_price)` first and only then
calls `order_market_buy`; an exchange failure therefore propagates with the
assignment already committed.  Returns (outcome, state after the call). -/
def place_market_buy (api : OrderAPI) (st : BotState) (current_price : ℚ) :
    Except BotError Unit × BotState :=
  let amt := pyInt (st.trade_amount / current_price)
  let st1 : BotState := ⟨st.asset, st.trade_amount, some amt⟩
  if api.buyOk st.asset amt then (.ok (), st1) else (.error .apiError, st1)

/-- `Bot.place_market_sell()`.  Reads `self.amount`; if no buy ever set it
the attribute access raises (`AttributeError`) before the client is
consulted.  The third component counts sell orders submitted. -/
def place_market_sell (api : OrderAPI) (st : BotState) :
    Except BotError Unit × BotState × Nat :=
  match st.amount with
  | none => (.error .attributeError, st, 0)
  | some amt =>
      if api.sellOk st.asset amt then (.ok (), st, 1)
      else (.error .apiError, st, 1)

/-- One row of the `user_data` table. -/
structure UserRow where
  username : String
  password : String
  api_key : String
  secret_key : String
deriving DecidableEq

/-- `Database.create_user`: `INSERT INTO user_data VALUES(...)` appends one
row; no uniqueness check is made. -/
def create_user (db : List UserRow) (username password_hash api_key secret_key : String) :
    List UserRow :=
  db ++ [⟨username, password_hash, api_key, secret_key⟩]

/-- `Database.get_user_data`: `SELECT * FROM user_data WHERE username=?`
then `fetchone()` — the first matching row in insertion order, or none. -/
def get_user_data (db : List UserRow) (username : String) : Option UserRow :=
  db.find? (fun r => r.username == username)

/-- Closing prices `1..20`, the test vector of the spec. -/
def closes1to20 : List ℚ :=
  [1, 2, 3, 4, 5, 6, 7, 8, 9, 10, 11, 12, 13, 14, 15, 16, 17, 18, 19, 20]

/-- The closes list `get_bbands` uses on the `apiAsc` exchange: the closes
`24, 23, …, 5` of the 20 most recent candles, newest first. -/
def usedOnApiAsc : List ℚ := (List.range 20).map (fun i => ((24 - i : ℕ) : ℚ))

/-- An order API on which every buy submission fails. -/
def apiBuyFail : OrderAPI := ⟨fun _ _ => false, fun _ _ => true⟩

/-- An order API on which every submission succeeds. -/
def apiAllOk : OrderAPI := ⟨fun _ _ => true, fun _ _ => true⟩

/-! ## Theorems -/

/-- C1 (counterexample): with the valid interval code `1H`, an exchange
window of exactly 3 candles ordered oldest first comes back from
`get_klines` newest first — not in ascending chronological order, refuting
the claim as stated. -/
theorem C1_counterexample :
    (apiAsc.klines "BTCUSDT" "1h" 3).length = 3 ∧
    strictChronAsc (apiAsc.klines "BTCUSDT" "1h" 3) ∧
    (get_klines apiAsc "BTCUSDT" "1H" 3).1 = .ok [⟨2, 2⟩, ⟨1, 1⟩, ⟨0, 0⟩] ∧
    ¬ strictChronAsc [(⟨2, 2⟩ : Candle), ⟨1, 1⟩, ⟨0, 0⟩] := by
  decide

/-- C1 (amended): for every valid interval code and limit, when the
exchange returns exactly `limit` candles ordered oldest first,
`get_klines` returns exactly `limit` candles in strictly descending
chronological order (newest first) — the reversal inverts the order. -/
theorem C1_amended_descending (api : ExchangeAPI) (asset time_interval token : String)
    (limit_ : ℕ) (htok : kline_intervals.lookup time_interval = some token)
    (hlen : (api.klines asset token limit_).length = limit_)
    (hasc : strictChronAsc (api.klines asset token limit_)) :
    (get_klines api asset time_interval limit_).1 =
      .ok (api.klines asset token limit_).reverse ∧
    (api.klines asset token limit_).reverse.length = limit_ ∧
    strictChronDesc (api.klines asset token limit_).reverse := by
  refine ⟨by simp [get_klines, htok], by simpa using hlen, ?_⟩
  exact List.pairwise_reverse.2 hasc

/-- C1 (witness): the amended statement at the `apiAsc` exchange,
interval `1H`, limit 3. -/
theorem C1_amended_witness :
    (get_klines apiAsc "BTCUSDT" "1H" 3).1 =
      .ok (apiAsc.klines "BTCUSDT" "1h" 3).reverse ∧
    (apiAsc.klines "BTCUSDT" "1h" 3).reverse.length = 3 ∧
    strictChronDesc (apiAsc.klines "BTCUSDT" "1h" 3).reverse :=
  C1_amended_descending apiAsc "BTCUSDT" "1H" "1h" 3 (by decide) (by decide) (by decide)

/-- C2 (counterexample): on a chronologically ascending 25-candle window
with closes `0..24`, the closes the band computation uses contain `24`
(the close of the most recent candle, which the claim says is excluded)
and do not contain `0` (the close of the oldest candle, which the claim
says is included). -/
theorem C2_counterexample :
    (apiAsc.klines "BTCUSDT" "1h" 25).length = 25 ∧
    strictChronAsc (apiAsc.klines "BTCUSDT" "1h" 25) ∧
    bband_closes_used apiAsc "BTCUSDT" "1H" = .ok usedOnApiAsc ∧
    (24 : ℚ) ∈ usedOnApiAsc ∧ (0 : ℚ) ∉ usedOnApiAsc := by
  decide

/-- C2 (amended): the indicator is computed from the closing prices of the
20 **most recent** of the 25 fetched candles (the 5 oldest are excluded),
taken newest first, because `get_klines` reverses the window before the
first 20 entries are read. -/
theorem C2_amended_most_recent (api : ExchangeAPI) (asset time_interval token : String)
    (htok : kline_intervals.lookup time_interval = some token)
    (hlen : (api.klines asset token 25).length = 25) :
    bband_closes_used api asset time_interval =
      .ok (((api.klines asset token 25).drop 5).map Candle.close).reverse := by
  have h20 : ¬ (api.klines asset token 25).reverse.length < 20 := by
    rw [List.length_reverse, hlen]; norm_num
  simp only [bband_closes_used, get_klines, htok, last_20_closes, if_neg h20]
  rw [List.take_reverse, hlen]
  norm_num [List.map_reverse]

/-- C2 (witness): the amended statement at the `apiAsc` exchange. -/
theorem C2_amended_witness :
    bband_closes_used apiAsc "BTCUSDT" "1H" =
      .ok (((apiAsc.klines "BTCUSDT" "1h" 25).drop 5).map Candle.close).reverse :=
  C2_amended_most_recent apiAsc "BTCUSDT" "1H" "1h" (by decide) (by decide)

/-- `pyRound` is plain nearest-integer rounding away from a tie. -/
theorem pyRound_of_ne_half (y : ℝ) (h : Int.fract y ≠ 1 / 2) : pyRound y = round y :=
  if_neg h

/-- `round(x, 8)` of a value that is an exact multiple of `10 ^ (-8)`. -/
theorem pyRound8_intCast (x : ℝ) (m : ℤ) (hm : x * 10 ^ 8 = (m : ℝ)) :
    pyRound8 x = (m : ℚ) / 10 ^ 8 := by
  have hf : Int.fract (x * 10 ^ 8) ≠ 1 / 2 := by
    rw [hm, Int.fract_intCast]; norm_num
  rw [pyRound8, pyRound_of_ne_half _ hf, hm, round_intCast]

/-- The simple moving average of 20 equal closes is that close. -/
theorem sma_replicate (c : ℚ) : simple_ma (List.replicate 20 c) = c := by
  rw [simple_ma, List.sum_replicate, nsmul_eq_mul]
  norm_num

/-- The standard deviation of 20 equal closes is zero. -/
theorem sd_replicate (c : ℚ) : standard_deviation (List.replicate 20 c) = 0 := by
  rw [standard_deviation]
  simp only [squared_list, List.map_replicate, sma_replicate, sub_self]
  norm_num [List.sum_replicate]

/-- On 20 equal closes the band computation reduces to rounding the close. -/
theorem lower_band_replicate (c : ℚ) :
    lower_band (List.replicate 20 c) = pyRound8 ((c : ℝ)) := by
  rw [lower_band, sma_replicate, sd_replicate]
  norm_num

/-- SMA of the closes `1..20`. -/
theorem sma_closes1to20 : simple_ma closes1to20 = 21 / 2 := by
  norm_num [closes1to20, simple_ma]

/-- Sum of squared deviations for the closes `1..20`. -/
theorem sqsum_closes1to20 : (squared_list closes1to20).sum = 665 := by
  norm_num [closes1to20, squared_list, simple_ma]

/-- Rational bounds on the standard deviation of the closes `1..20`,
`√33.25 = 5.76628129733…`. -/
theorem sd_closes1to20_bounds :
    (57662812973 / 10 ^ 10 : ℝ) < standard_deviation closes1to20 ∧
    standard_deviation closes1to20 < 57662812974 / 10 ^ 10 := by
  have h : standard_deviation closes1to20 = Real.sqrt (133 / 4) := by
    rw [standard_deviation, sqsum_closes1to20]
    norm_num
  rw [h]
  exact ⟨(Real.lt_sqrt (by positivity)).2 (by norm_num),
         (Real.sqrt_lt' (by positivity)).2 (by norm_num)⟩

/-- The band value on the closes `1..20`:
`10.5 - 2·√33.25 = -1.03256259467…` rounds at 8 fractional digits to
`-1.03256259`. -/
theorem lower_band_closes1to20 : lower_band closes1to20 = -103256259 / 10 ^ 8 := by
  obtain ⟨hlo, hhi⟩ := sd_closes1to20_bounds
  set s := standard_deviation closes1to20 with hs
  rw [lower_band, sma_closes1to20]
  have hcast : (((21 : ℚ) / 2 : ℚ) : ℝ) = 21 / 2 := by norm_num
  rw [hcast, ← hs]
  have hfl : ⌊((21 / 2 : ℝ) - s * 2) * 10 ^ 8⌋ = -103256260 := by
    rw [Int.floor_eq_iff]
    push_cast
    constructor <;> nlinarith
  have hfr : Int.fract (((21 / 2 : ℝ) - s * 2) * 10 ^ 8) ≠ 1 / 2 := by
    rw [Int.fract, hfl]
    intro hcontra
    push_cast at hcontra
    nlinarith
  have hrd : round (((21 / 2 : ℝ) - s * 2) * 10 ^ 8) = -103256259 := by
    rw [round_eq, Int.floor_eq_iff]
    push_cast
    constructor <;> nlinarith
  rw [pyRound8, pyRound_of_ne_half _ hfr, hrd]
  norm_num

/-- C3 (counterexample): on the closes `1..20` the band does **not** round
to `-1.03256260` as the claim states. -/
theorem C3_counterexample : lower_band closes1to20 ≠ -10325626 / 10 ^ 7 := by
  rw [lower_band_closes1to20]
  norm_num

/-- C3 (amended): for the closes `1..20`, the SMA is `10.5`, the population
standard deviation is within `10 ^ (-6)` of `5.766281`, and the lower band
rounded to 8 fractional digits is `-1.03256259` (the exact value is
`10.5 - 2·√33.25 = -1.032562594670…`, one ulp away from the figure given
in the claim). -/
theorem C3_test_vector :
    simple_ma closes1to20 = 21 / 2 ∧
    |standard_deviation closes1to20 - 5766281 / 10 ^ 6| < 1 / 10 ^ 6 ∧
    lower_band closes1to20 = -103256259 / 10 ^ 8 := by
  refine ⟨sma_closes1to20, ?_, lower_band_closes1to20⟩
  obtain ⟨hlo, hhi⟩ := sd_closes1to20_bounds
  rw [abs_lt]
  constructor <;> nlinarith

/-- C4 (counterexample): with all 20 closes equal to `c = 10 ^ (-9)`, the
band computation returns `round(c, 8) = 0`, not `c` — the claim fails for
values that need more than 8 fractional digits. -/
theorem C4_counterexample :
    lower_band (List.replicate 20 (1 / 10 ^ 9 : ℚ)) ≠ 1 / 10 ^ 9 := by
  have h1 : lower_band (List.replicate 20 (1 / 10 ^ 9 : ℚ)) = 0 := by
    rw [lower_band_replicate]
    have hx : ((1 / 10 ^ 9 : ℚ) : ℝ) * 10 ^ 8 = 1 / 10 := by
      push_cast
      ring
    have hfl : Int.fract ((1 : ℝ) / 10) = 1 / 10 := by
      rw [Int.fract]
      norm_num
    have hf : Int.fract (((1 / 10 ^ 9 : ℚ) : ℝ) * 10 ^ 8) ≠ 1 / 2 := by
      rw [hx, hfl]; norm_num
    have hr : round (((1 / 10 ^ 9 : ℚ) : ℝ) * 10 ^ 8) = 0 := by
      rw [hx, round_eq]
      norm_num
    rw [pyRound8, pyRound_of_ne_half _ hf, hr]
    norm_num
  rw [h1]
  norm_num

/-- C4 (amended): when all 20 closes equal `c`, the standard deviation is
zero and the band computation returns `c` rounded to 8 fractional digits;
this is exactly `c` whenever `c · 10 ^ 8` is an integer. -/
theorem C4_constant_closes (c : ℚ) (m : ℤ) (hm : c * 10 ^ 8 = (m : ℚ)) :
    lower_band (List.replicate 20 c) = c := by
  have hx : (c : ℝ) * 10 ^ 8 = (m : ℝ) := by
    have h2 := congrArg (fun q : ℚ => (q : ℝ)) hm
    push_cast at h2
    exact h2
  rw [lower_band_replicate, pyRound8_intCast _ m hx, ← hm]
  field_simp

/-- C4 (witness): 20 closes all equal to 3 give band 3. -/
theorem C4_constant_closes_witness : lower_band (List.replicate 20 3) = 3 :=
  C4_constant_closes 3 300000000 (by norm_num)

/-- C5: given fewer than 20 candles the band computation fails with the
out-of-range error (`IndexError`, the InsufficientDataError of the spec)
and produces no result at all. -/
theorem C5_insufficient_data (klines : List Candle) (h : klines.length < 20) :
    compute_lower_band klines = .error .indexError := by
  simp [compute_lower_band, last_20_closes, h, Except.map]

/-- C5 (witness): the empty candle list. -/
theorem C5_insufficient_data_witness :
    compute_lower_band [] = .error .indexError :=
  C5_insufficient_data [] (by decide)

/-- C6: an interval code outside the fixed table makes `get_klines` fail
with the table-lookup error (`KeyError`, the InvalidIntervalError of the
spec) and perform zero exchange calls, whatever the exchange would have
answered. -/
theorem C6_invalid_interval (api : ExchangeAPI) (asset time_interval : String) (limit_ : ℕ)
    (h : time_interval ∉ ["15m", "30m", "1H", "2H", "4H", "6H", "12H", "1D"]) :
    get_klines api asset time_interval limit_ = (.error .keyError, 0) := by
  have hl : kline_intervals.lookup time_interval = none := by
    simp only [List.mem_cons, List.not_mem_nil, or_false, not_or] at h
    obtain ⟨h1, h2, h3, h4, h5, h6, h7, h8⟩ := h
    simp [kline_intervals, List.lookup, beq_eq_false_iff_ne.2 h1, beq_eq_false_iff_ne.2 h2,
      beq_eq_false_iff_ne.2 h3, beq_eq_false_iff_ne.2 h4, beq_eq_false_iff_ne.2 h5,
      beq_eq_false_iff_ne.2 h6, beq_eq_false_iff_ne.2 h7, beq_eq_false_iff_ne.2 h8]
  simp [get_klines, hl]

/-- C6 (witness): the unsupported code `7m`. -/
theorem C6_invalid_interval_witness :
    get_klines apiAsc "BTCUSDT" "7m" 25 = (.error .keyError, 0) :=
  C6_invalid_interval apiAsc "BTCUSDT" "7m" 25 (by decide)

/-- C7 (counterexample): after a buy whose exchange submission **failed**
(so there was no successful enter and the session counts as Flat), a sell
does not fail with the missing-attribute error: `self.amount = 2` was
committed by the failed buy, and `place_market_sell` submits one sell
order with that stale quantity, succeeding outright. -/
theorem C7_counterexample :
    (place_market_buy apiBuyFail ⟨"BTCUSDT", 250, none⟩ 100).1 = .error .apiError ∧
    place_market_sell apiBuyFail
        (place_market_buy apiBuyFail ⟨"BTCUSDT", 250, none⟩ 100).2 =
      (.ok (), ⟨"BTCUSDT", 250, some 2⟩, 1) := by
  have hpy : pyInt ((250 : ℚ) / 100) = 2 := by
    rw [pyInt, if_pos (by norm_num)]
    norm_num
  constructor <;> simp [place_market_buy, place_market_sell, apiBuyFail, hpy]

/-- C7 (amended): a sell fails with the missing-attribute error
(`AttributeError`, the NoOpenPositionError of the spec) and submits zero
sell orders only when **no buy was ever attempted** (`self.amount` unset);
after any buy attempt — successful or failed — `self.amount` is set and a
sell submits exactly one order with that quantity instead of failing. -/
theorem C7_amended_sell_flat (api : OrderAPI) (st : BotState) (current_price : ℚ)
    (h : st.amount = none) :
    place_market_sell api st = (.error .attributeError, st, 0) ∧
    (place_market_sell api (place_market_buy api st current_price).2).2.2 = 1 := by
  constructor
  · simp [place_market_sell, h]
  · have hamt : (place_market_buy api st current_price).2.amount =
        some (pyInt (st.trade_amount / current_price)) := by
      simp [place_market_buy, apply_ite]
    rw [place_market_sell, hamt]
    cases hb : api.sellOk (place_market_buy api st current_price).2.asset
        (pyInt (st.trade_amount / current_price)) <;> simp [hb]

/-- C7 (witness): the amended statement on a bot with no buy attempted,
then after a failed buy attempt. -/
theorem C7_amended_witness :
    place_market_sell apiBuyFail ⟨"BTCUSDT", 250, none⟩ =
      (.error .attributeError, ⟨"BTCUSDT", 250, none⟩, 0) ∧
    (place_market_sell apiBuyFail
        (place_market_buy apiBuyFail ⟨"BTCUSDT", 250, none⟩ 100).2).2.2 = 1 :=
  C7_amended_sell_flat apiBuyFail ⟨"BTCUSDT", 250, none⟩ 100 rfl

/-- C8 (counterexample): on an exchange that rejects the buy, the error
propagates but the state of the bot is **not** unchanged — the buy had
already committed `self.amount = 2` before the submission failed, so the
bot no longer looks Flat. -/
theorem C8_counterexample :
    (place_market_buy apiBuyFail ⟨"BTCUSDT", 250, none⟩ 100).1 = .error .apiError ∧
    (place_market_buy apiBuyFail ⟨"BTCUSDT", 250, none⟩ 100).2.amount = some 2 ∧
    (place_market_buy apiBuyFail ⟨"BTCUSDT", 250, none⟩ 100).2 ≠
      ⟨"BTCUSDT", 250, none⟩ := by
  have hpy : pyInt ((250 : ℚ) / 100) = 2 := by
    rw [pyInt, if_pos (by norm_num)]
    norm_num
  refine ⟨?_, ?_, ?_⟩ <;>
    simp [place_market_buy, apiBuyFail, hpy]

/-- C8 (amended): when the exchange rejects the buy submission, the error
propagates to the caller, but the computed quantity has already been
committed to `self.amount` — partial state survives the failure. -/
theorem C8_amended_partial_state (api : OrderAPI) (st : BotState) (current_price : ℚ)
    (hfail : api.buyOk st.asset (pyInt (st.trade_amount / current_price)) = false) :
    place_market_buy api st current_price =
      (.error .apiError,
       ⟨st.asset, st.trade_amount, some (pyInt (st.trade_amount / current_price))⟩) := by
  simp [place_market_buy, hfail]

/-- C8 (witness): the amended statement on a failing exchange. -/
theorem C8_amended_witness :
    place_market_buy apiBuyFail ⟨"BTCUSDT", 250, none⟩ 100 =
      (.error .apiError, ⟨"BTCUSDT", 250, some (pyInt (250 / 100))⟩) :=
  C8_amended_partial_state apiBuyFail ⟨"BTCUSDT", 250, none⟩ 100 rfl

/-- C9: for positive trade amount and price, the bought quantity is the
integer floor of `trade_amount / current_price` (the `int(...)` truncation
coincides with the floor on nonnegative values). -/
theorem C9_quantity_floor (api : OrderAPI) (st : BotState) (current_price : ℚ)
    (ha : 0 < st.trade_amount) (hp : 0 < current_price) :
    (place_market_buy api st current_price).2.amount =
      some ⌊st.trade_amount / current_price⌋ := by
  have h0 : 0 ≤ st.trade_amount / current_price := le_of_lt (div_pos ha hp)
  have hpy : pyInt (st.trade_amount / current_price) =
      ⌊st.trade_amount / current_price⌋ := if_pos h0
  simp [place_market_buy, hpy, apply_ite]

/-- C9 (witness): trade amount 250 at price 100 buys quantity 2. -/
theorem C9_quantity_floor_witness :
    (place_market_buy apiAllOk ⟨"BTCUSDT", 250, none⟩ 100).2.amount = some 2 := by
  have h := C9_quantity_floor apiAllOk ⟨"BTCUSDT", 250, none⟩ 100 (by norm_num) (by norm_num)
  rw [h]
  norm_num

/-- C10: inserting a credential row for a username absent from the table
and reading it back returns exactly the stored tuple; and after a second
insert under the same username with different data, the read still returns
the first-inserted record. -/
theorem C10_roundtrip_first_record (db : List UserRow)
    (username password_hash api_key secret_key p2 a2 s2 : String)
    (h : ∀ r ∈ db, r.username ≠ username) :
    get_user_data (create_user db username password_hash api_key secret_key) username =
      some ⟨username, password_hash, api_key, secret_key⟩ ∧
    get_user_data
        (create_user (create_user db username password_hash api_key secret_key)
          username p2 a2 s2) username =
      some ⟨username, password_hash, api_key, secret_key⟩ := by
  have hnone : db.find? (fun r => r.username == username) = none :=
    List.find?_eq_none.mpr (fun r hr => by simpa using h r hr)
  constructor
  · simp [get_user_data, create_user, List.find?_append, hnone]
  · simp [get_user_data, create_user, List.find?_append, hnone]

/-- C10 (witness): round trip and duplicate insert from the empty table. -/
theorem C10_roundtrip_first_record_witness :
    get_user_data (create_user [] "alice" "h1" "k1" "s1") "alice" =
      some ⟨"alice", "h1", "k1", "s1"⟩ ∧
    get_user_data (create_user (create_user [] "alice" "h1" "k1" "s1")
        "alice" "h2" "k2" "s2") "alice" =
      some ⟨"alice", "h1", "k1", "s1"⟩ :=
  C10_roundtrip_first_record [] "alice" "h1" "k1" "s1" "h2" "k2" "s2" (by simp)

end BinanceTradeBot
